import Mathlib

/-!
Verification of the routing and trade-orchestration layer of the
python-swarm-sdks repository, as a shallow embedding in Lean 4.

Conventions of the embedding:
* Python `Decimal` values are modelled as exact rationals (`ℚ`).  The
  default 28-significant-digit context of `decimal` is abstracted away;
  the explicit `quantize` calls of the source are modelled exactly.
* Python `Optional[T]` is `Option T`; Python truthiness of optionals and
  strings is modelled explicitly (`optStrTruthy`, `pyTruthyQ`).
* A raised Python exception is an explicit `Except` error value.  The
  carried data is `PyErr`, recording the exception class name and the
  message (`str(e)`), since the orchestration code branches on exception
  classes and interpolates messages.
* `datetime` fields of the data classes carry no logic used by the
  claims and are omitted from the corresponding structures.
-/

namespace SwarmSDK

/-- Check that the list `pat` occurs at the start of `l` (character list). -/
def listStarts : List Char → List Char → Bool
  | [], _ => true
  | _ :: _, [] => false
  | p :: ps, c :: cs => p == c && listStarts ps cs

/-- Check that `pat` occurs contiguously somewhere inside `l`. -/
def listHasSub (pat : List Char) : List Char → Bool
  | [] => listStarts pat []
  | c :: cs => listStarts pat (c :: cs) || listHasSub pat cs

/-- Substring test on strings: does `s` contain `pat` contiguously?
Models the Python expression `pat in s`. -/
def strHasSub (s pat : String) : Bool :=
  listHasSub pat.data s.data

/-- Model of Python `sep.join(parts)`. -/
def joinSep (sep : String) : List String → String
  | [] => ""
  | [x] => x
  | x :: y :: xs => x ++ sep ++ joinSep sep (y :: xs)

/-- Python truthiness of an `Optional[str]`: `None` and `""` are falsy. -/
def optStrTruthy : Option String → Bool
  | none => false
  | some s => !(s == "")

/-- Python f-string rendering of an `Optional[str]`: `None` prints as
the four characters of the word None. -/
def pyStr : Option String → String
  | none => "None"
  | some s => s

/-- A raised Python exception: class name and message (`str(e)`). -/
structure PyErr where
  ty : String
  msg : String
deriving DecidableEq

/-- `swarm/shared/models.py` `Quote` (timestamp omitted, it carries no
logic).  Amounts are normalized decimal units, modelled as rationals. -/
structure Quote where
  sell_token_address : String
  buy_token_address : String
  sell_amount : ℚ
  buy_amount : ℚ
  rate : ℚ
  source : String
deriving DecidableEq

/-- `swarm/shared/models.py` `TradeResult` (timestamp and network enum
omitted; they carry no logic used by the claims). -/
structure TradeResult where
  tx_hash : String
  order_id : Option String
  sell_token_address : String
  buy_token_address : String
  sell_amount : ℚ
  buy_amount : ℚ
  rate : ℚ
  source : String
  status : String := "completed"
deriving DecidableEq

/-- `swarm/trading_sdk/routing.py` `RoutingStrategy`. -/
inductive RoutingStrategy
  | bestPrice
  | crossChainAccessFirst
  | marketMakerFirst
  | crossChainAccessOnly
  | marketMakerOnly
deriving DecidableEq

/-- `swarm/trading_sdk/routing.py` `PlatformOption`. -/
structure PlatformOption where
  platform : String
  quote : Option Quote := none
  available : Bool := true
  error : Option String := none
deriving DecidableEq

/-- `PlatformOption.get_effective_rate`: `buy_amount / sell_amount`,
zero when there is no quote or `sell_amount == 0`. -/
def PlatformOption.getEffectiveRate (o : PlatformOption) : ℚ :=
  match o.quote with
  | none => 0
  | some q => if q.sell_amount = 0 then 0 else q.buy_amount / q.sell_amount

/-- The availability test of `Router.select_platform`:
`option.available and option.quote is not None`. -/
def PlatformOption.isAvail (o : PlatformOption) : Bool :=
  o.available && o.quote.isSome

/-- `Router.select_platform` from `swarm/trading_sdk/routing.py`.
A `NoLiquidityException` is returned as `.error` with its message;
that is the only exception this function raises. -/
def selectPlatform (cross_chain_access_option market_maker_option : PlatformOption)
    (strategy : RoutingStrategy) (is_buy : Bool) : Except String PlatformOption :=
  let ccaAvail := cross_chain_access_option.isAvail
  let mmAvail := market_maker_option.isAvail
  if !ccaAvail && !mmAvail then
    let errors :=
      (if optStrTruthy cross_chain_access_option.error then
        ["Cross-Chain Access: " ++ pyStr cross_chain_access_option.error] else []) ++
      (if optStrTruthy market_maker_option.error then
        ["Market Maker: " ++ pyStr market_maker_option.error] else [])
    .error ("No platforms available. " ++ joinSep "; " errors)
  else if strategy = .crossChainAccessOnly then
    if !ccaAvail then
      .error ("Cross-Chain Access not available: " ++ pyStr cross_chain_access_option.error)
    else
      .ok cross_chain_access_option
  else if strategy = .marketMakerOnly then
    if !mmAvail then
      .error ("Market Maker not available: " ++ pyStr market_maker_option.error)
    else
      .ok market_maker_option
  else if strategy = .crossChainAccessFirst then
    if ccaAvail then .ok cross_chain_access_option
    else if mmAvail then .ok market_maker_option
    else .ok (if ccaAvail then cross_chain_access_option else market_maker_option)
  else if strategy = .marketMakerFirst then
    if mmAvail then .ok market_maker_option
    else if ccaAvail then .ok cross_chain_access_option
    else .ok (if ccaAvail then cross_chain_access_option else market_maker_option)
  else if strategy = .bestPrice then
    if ccaAvail && !mmAvail then .ok cross_chain_access_option
    else if mmAvail && !ccaAvail then .ok market_maker_option
    else
      let ccaRate := cross_chain_access_option.getEffectiveRate
      let mmRate := market_maker_option.getEffectiveRate
      if is_buy then
        if ccaRate ≤ mmRate then .ok cross_chain_access_option
        else .ok market_maker_option
      else
        if ccaRate ≥ mmRate then .ok cross_chain_access_option
        else .ok market_maker_option
  else
    .ok (if ccaAvail then cross_chain_access_option else market_maker_option)

/-! ### Trading orchestrator (`swarm/trading_sdk/sdk/client.py`, `TradingClient.trade`)

The post-validation part of `trade` (platform selection, execution on the
selected platform, fallback).  The outcome of running each platform executor once is an input (`ccaRun`, `mmRun`): the model covers the
orchestration, not the venue internals. -/

/-- Steps 2-3 of `TradingClient.trade`: select a platform via the Router,
execute the selected platform, fall back when the strategy allows it and
the `available` flag of the other option is set.  Matches the source exactly,
including the `TradingException` wrapper raised on the no-fallback path
and the `AllPlatformsFailedException` message format. -/
def tradeOrchestrate (strategy : RoutingStrategy)
    (cross_chain_access_option market_maker_option : PlatformOption) (is_buy : Bool)
    (ccaRun mmRun : Except PyErr TradeResult) : Except PyErr TradeResult :=
  match selectPlatform cross_chain_access_option market_maker_option strategy is_buy with
  | .error m => .error ⟨"NoLiquidityException", m⟩
  | .ok selected =>
    let runFor := fun (p : String) => if p = "cross_chain_access" then ccaRun else mmRun
    match runFor selected.platform with
    | .ok r => .ok r
    | .error e =>
      if strategy = .bestPrice ∨ strategy = .crossChainAccessFirst ∨
          strategy = .marketMakerFirst then
        let fallback_platform :=
          if selected.platform = "cross_chain_access" then "market_maker"
          else "cross_chain_access"
        let fallback_option :=
          if selected.platform = "cross_chain_access" then market_maker_option
          else cross_chain_access_option
        if fallback_option.available then
          match runFor fallback_platform with
          | .ok r => .ok r
          | .error fallback_error =>
            .error ⟨"AllPlatformsFailedException",
              "Primary (" ++ selected.platform ++ "): " ++ e.msg ++
              ". Fallback (" ++ fallback_platform ++ "): " ++ fallback_error.msg⟩
        else
          .error ⟨"TradingException", "Trade failed: " ++ e.msg⟩
      else
        .error ⟨"TradingException", "Trade failed: " ++ e.msg⟩

/-! ### Availability probes (`TradingClient._get_market_maker_option`,
`TradingClient._get_cross_chain_access_option`)

The outcome of the underlying `get_quote` call is an input: `.ok` a
quote, or `.error` the exception the call raised. -/

/-- `TradingClient._get_market_maker_option`: wrap a successful quote in
an available option; turn any exception into an unavailable option with
`error=str(e)`. -/
def getMarketMakerOption (quoteResult : Except PyErr Quote) : PlatformOption :=
  match quoteResult with
  | .ok quote => { platform := "market_maker", quote := some quote }
  | .error e => { platform := "market_maker", available := false, error := some e.msg }

/-- `TradingClient._get_cross_chain_access_option`: short-circuit when no
symbol is supplied (Python `if not symbol:` — `None` or `""`); classify
`MarketClosedException` as the fixed string `"Market closed"`; any other
exception becomes `error=str(e)`.  `fetch` is the quote request, applied
only when a symbol is present. -/
def getCrossChainAccessOption (symbol : Option String)
    (fetch : String → Except PyErr Quote) : PlatformOption :=
  if !optStrTruthy symbol then
    { platform := "cross_chain_access", available := false, error := some "Symbol not provided" }
  else
    match symbol with
    | none =>
      { platform := "cross_chain_access", available := false, error := some "Symbol not provided" }
    | some s =>
      match fetch s with
      | .ok quote => { platform := "cross_chain_access", quote := some quote }
      | .error e =>
        if e.ty = "MarketClosedException" then
          { platform := "cross_chain_access", available := false, error := some "Market closed" }
        else
          { platform := "cross_chain_access", available := false, error := some e.msg }

/-! ### Market Maker executor (`swarm/market_maker_sdk/sdk/client.py`,
`MarketMakerClient.trade`, step 2, and
`market_maker_web3/client.py` `take_offer_fixed` / `take_offer_dynamic`)

The on-chain side is modelled as the list of transactions the executor
submits (`ChainAction`), in order.  An `.error` result means the executor
raised before submitting anything beyond the listed actions — and the
dynamic-rate guard of `MarketMakerClient.trade` fires before any
web3 call, so its `.error` carries no action list at all. -/

/-- `rpq_service/models.py` `PricingType`. -/
inductive PricingType
  | fixedPricing
  | dynamicPricing
deriving DecidableEq

/-- `rpq_service/models.py` `SelectedOffer`.  The string-encoded decimal
fields are modelled as rationals; `deposit_to_withdrawal_rate` is `none`
when the Python value is `None` or empty (the `if not ...:` guard). -/
structure SelectedOffer where
  id : String
  withdrawal_amount_paid : ℚ
  withdrawal_amount_paid_decimals : ℕ
  maker : String
  price_per_unit : ℚ
  pricing_type : PricingType
  deposit_to_withdrawal_rate : Option ℚ := none
deriving DecidableEq

/-- An on-chain transaction submitted by the Market Maker executor. -/
inductive ChainAction
  | approve (token : String) (spender : String) (amount : ℚ)
  | takeDynamic (offerId : String) (amountWei : ℤ) (maxRateWei : ℤ) (affiliate : String)
  | takeFixed (offerId : String) (amountWei : ℤ) (affiliate : String)
deriving DecidableEq

/-- Python `int(...)` on a `Decimal`: truncation toward zero. -/
def decToInt (x : ℚ) : ℤ :=
  if 0 ≤ x then ⌊x⌋ else ⌈x⌉

/-- The zero address used when no affiliate is supplied. -/
def zeroAddress : String := "0x0000000000000000000000000000000000000000"

/-- `affiliate if affiliate else zero address` (Python truthiness). -/
def affiliateOrZero (affiliate : Option String) : String :=
  if optStrTruthy affiliate then pyStr affiliate else zeroAddress

/-- `MarketMakerWeb3Client._approve_token_if_needed`: submit an approval
only when the current allowance is below the needed amount. -/
def approveIfNeeded (allowance : ℚ) (token spender : String) (amount : ℚ) : List ChainAction :=
  if allowance ≥ amount then [] else [.approve token spender amount]

/-- On-chain environment of a take: current allowance of the withdrawal
token for the manager contract, the token decimals (`TOKEN_DECIMALS`
lookup, default 18), and the manager contract address. -/
structure Web3Env where
  allowance : ℚ
  tokenDecimals : ℕ := 18
  managerAddress : String
deriving DecidableEq

/-- Transactions submitted by `take_offer_dynamic`: the conditional
approval for the normalized amount, then `takeOfferDynamic` with the
truncated amount and maximum rate. -/
def takeOfferDynamicActions (env : Web3Env) (offer_id : String) (withdrawal_token : String)
    (withdrawal_amount_paid : ℚ) (maximum_deposit_to_withdrawal_rate : ℚ)
    (affiliate : Option String) : List ChainAction :=
  let amount_wei := decToInt withdrawal_amount_paid
  let max_rate_wei := decToInt maximum_deposit_to_withdrawal_rate
  let normalized_amount := withdrawal_amount_paid / ((10 : ℚ) ^ env.tokenDecimals)
  approveIfNeeded env.allowance withdrawal_token env.managerAddress normalized_amount ++
    [.takeDynamic offer_id amount_wei max_rate_wei (affiliateOrZero affiliate)]

/-- Transactions submitted by `take_offer_fixed`. -/
def takeOfferFixedActions (env : Web3Env) (offer_id : String) (withdrawal_token : String)
    (withdrawal_amount_paid : ℚ) (affiliate : Option String) : List ChainAction :=
  let amount_wei := decToInt withdrawal_amount_paid
  let normalized_amount := withdrawal_amount_paid / ((10 : ℚ) ^ env.tokenDecimals)
  approveIfNeeded env.allowance withdrawal_token env.managerAddress normalized_amount ++
    [.takeFixed offer_id amount_wei (affiliateOrZero affiliate)]

/-- Step 2 of `MarketMakerClient.trade`: dispatch on the pricing type of the selected offer.  A dynamic offer without a `deposit_to_withdrawal_rate`
raises `MarketMakerWeb3Exception` before any web3 call; otherwise the
rate is passed to `take_offer_dynamic` as the maximum rate. -/
def mmTradeTakeStep (env : Web3Env) (selected_offer : SelectedOffer)
    (from_token : String) (affiliate : Option String) : Except PyErr (List ChainAction) :=
  if selected_offer.pricing_type = .dynamicPricing then
    match selected_offer.deposit_to_withdrawal_rate with
    | none =>
      .error ⟨"MarketMakerWeb3Exception",
        "Dynamic offer " ++ selected_offer.id ++ " missing depositToWithdrawalRate"⟩
    | some max_rate =>
      .ok (takeOfferDynamicActions env selected_offer.id from_token
        selected_offer.withdrawal_amount_paid max_rate affiliate)
  else
    .ok (takeOfferFixedActions env selected_offer.id from_token
      selected_offer.withdrawal_amount_paid affiliate)

/-! ### Cross-Chain Access executor
(`libs/cross_chain_access_sdk/sdk/client.py`, `CrossChainAccessClient`)

`Decimal.quantize(Decimal(10) ** -d)` uses the context rounding
`ROUND_HALF_EVEN`; it is modelled exactly on rationals. -/

/-- `cross_chain_access/models.py` `OrderSide`. -/
inductive OrderSide
  | buy
  | sell
deriving DecidableEq

/-- `cross_chain_access/models.py` `CrossChainAccessQuote` (timestamp and
exchange tags omitted). -/
structure CrossChainAccessQuote where
  bid_price : ℚ
  ask_price : ℚ
  bid_size : ℚ
  ask_size : ℚ
deriving DecidableEq

/-- `CrossChainAccessQuote.get_price_for_side`: ask for buys, bid for
sells. -/
def getPriceForSide (q : CrossChainAccessQuote) (side : OrderSide) : ℚ :=
  if side = .buy then q.ask_price else q.bid_price

/-- Round a rational to the nearest integer, ties to the even integer
(the `ROUND_HALF_EVEN` rule of Python `decimal`). -/
def roundHalfEvenZ (x : ℚ) : ℤ :=
  if x - ⌊x⌋ < 1 / 2 then ⌊x⌋
  else if 1 / 2 < x - ⌊x⌋ then ⌊x⌋ + 1
  else if ⌊x⌋ % 2 = 0 then ⌊x⌋ else ⌊x⌋ + 1

/-- `value.quantize(Decimal(10) ** -d)`: round to `d` decimal places,
half to even. -/
def quantizeDec (d : ℕ) (x : ℚ) : ℚ :=
  (roundHalfEvenZ (x * (10 : ℚ) ^ d) : ℚ) / (10 : ℚ) ^ d

/-- `RWA_DECIMALS` from `libs/cross_chain_access_sdk/sdk/client.py`. -/
def RWA_DECIMALS : ℕ := 9

/-- `USDC_DECIMALS` from `libs/cross_chain_access_sdk/sdk/client.py`. -/
def USDC_DECIMALS : ℕ := 2

/-- Python truthiness of an `Optional[Decimal]`: `None` and `0` falsy. -/
def pyTruthyQ : Option ℚ → Bool
  | none => false
  | some v => !(v == 0)

/-- Step 3 of `CrossChainAccessClient._execute_trade` before rounding:
`(final_rwa, final_usdc)` from whichever amount is supplied.  `none`
models the `TypeError` Python would raise when the branch taken uses a
`None` operand.  The BUY and SELL branches of the source are written out
separately (they are textually identical). -/
def rawTradeAmounts (order_side : OrderSide) (rwa_amount usdc_amount : Option ℚ)
    (price : ℚ) : Option (ℚ × ℚ) :=
  match order_side with
  | .buy =>
    if pyTruthyQ rwa_amount then
      rwa_amount.map (fun r => (r, r * price))
    else
      usdc_amount.map (fun u => (u / price, u))
  | .sell =>
    if pyTruthyQ rwa_amount then
      rwa_amount.map (fun r => (r, r * price))
    else
      usdc_amount.map (fun u => (u / price, u))

/-- Step 3 of `_execute_trade` including the rounding of both legs:
`final_rwa` to 9 decimals, `final_usdc` to 2 decimals. -/
def calcTradeAmounts (order_side : OrderSide) (rwa_amount usdc_amount : Option ℚ)
    (price : ℚ) : Option (ℚ × ℚ) :=
  (rawTradeAmounts order_side rwa_amount usdc_amount price).map
    (fun p => (quantizeDec RWA_DECIMALS p.1, quantizeDec USDC_DECIMALS p.2))

deriving instance DecidableEq for Except

/-- Environment of one `_execute_trade` run: the availability check
outcome, the fresh quote, account funds, the RWA balance of the wallet, and
the outcomes of the on-chain transfer (tx hash) and of the off-chain
order submission (order id). -/
structure CcaEnv where
  isAvailable : Bool
  availabilityMessage : String
  quote : CrossChainAccessQuote
  buyingPower : ℚ
  rwaBalance : ℚ
  transferResult : Except PyErr String
  orderResult : Except PyErr String
deriving DecidableEq

/-- `CrossChainAccessClient._execute_trade`.  Numeric interpolation in
error messages is abbreviated to the fixed message text (no claim
depends on the interpolated numbers).  Note the source wraps neither the
transfer nor the order submission in a try/except: their errors
propagate unchanged. -/
def ccaExecuteTrade (env : CcaEnv) (rwa_token_address rwa_symbol : String)
    (rwa_amount usdc_amount : Option ℚ) (order_side : OrderSide)
    (usdc_address : String) : Except PyErr TradeResult :=
  if !env.isAvailable then
    if strHasSub env.availabilityMessage.toLower "market" ||
        strHasSub env.availabilityMessage.toLower "closed" then
      .error ⟨"MarketClosedException", env.availabilityMessage⟩
    else
      .error ⟨"AccountBlockedException", env.availabilityMessage⟩
  else
    let price := getPriceForSide env.quote order_side
    match calcTradeAmounts order_side rwa_amount usdc_amount price with
    | none => .error ⟨"TypeError", "unsupported operand type for NoneType"⟩
    | some (final_rwa, final_usdc) =>
      let fundsCheck : Except PyErr (String × ℚ) :=
        if order_side = .buy then
          if !(env.buyingPower ≥ final_usdc) then
            .error ⟨"InsufficientFundsException", "Insufficient buying power"⟩
          else
            .ok (usdc_address, final_usdc)
        else
          if env.rwaBalance < final_rwa then
            .error ⟨"InsufficientFundsException", "Insufficient RWA balance"⟩
          else
            .ok (rwa_token_address, final_rwa)
      match fundsCheck with
      | .error e => .error e
      | .ok (transfer_token, transfer_amount) =>
        match env.transferResult with
        | .error e => .error e
        | .ok tx_hash =>
          match env.orderResult with
          | .error e => .error e
          | .ok order_id =>
            .ok { tx_hash := tx_hash
                  order_id := some order_id
                  sell_token_address := transfer_token
                  buy_token_address :=
                    if order_side = .buy then rwa_token_address else usdc_address
                  sell_amount := transfer_amount
                  buy_amount := if order_side = .buy then final_rwa else final_usdc
                  rate := price
                  source := "cross_chain_access" }

/-- `CrossChainAccessClient.get_quote`: one unit of USDC sold at the ask
price, regardless of trade direction. -/
def ccaGetQuote (usdc_address rwa_symbol : String)
    (cross_chain_access_quote : CrossChainAccessQuote) : Quote :=
  { sell_token_address := usdc_address
    sell_amount := 1
    buy_token_address := rwa_symbol
    buy_amount := 1 / cross_chain_access_quote.ask_price
    rate := cross_chain_access_quote.ask_price
    source := "cross_chain_access" }

/-! ### Helper lemmas on substrings and rounding -/

theorem listStarts_self_append (pat rest : List Char) : listStarts pat (pat ++ rest) = true := by
  induction pat with
  | nil => rfl
  | cons c cs ih => simp [listStarts, ih]

theorem listHasSub_of_starts (pat l : List Char) (h : listStarts pat l = true) :
    listHasSub pat l = true := by
  cases l with
  | nil => exact h
  | cons c cs => simp [listHasSub, h]

theorem listStarts_extend (pat : List Char) :
    ∀ l m : List Char, listStarts pat l = true → listStarts pat (l ++ m) = true := by
  induction pat with
  | nil => intro l m _; rfl
  | cons p ps ih =>
    intro l m h
    cases l with
    | nil => simp [listStarts] at h
    | cons c cs =>
      simp [listStarts] at h ⊢
      exact ⟨h.1, ih cs m h.2⟩

theorem listHasSub_extend_right (pat : List Char) :
    ∀ l m : List Char, listHasSub pat l = true → listHasSub pat (l ++ m) = true := by
  intro l
  induction l with
  | nil =>
    intro m h
    have hp : pat = [] := by
      cases pat with
      | nil => rfl
      | cons p ps => simp [listHasSub, listStarts] at h
    subst hp
    cases m <;> simp [listHasSub, listStarts]
  | cons c cs ih =>
    intro m h
    simp only [listHasSub, Bool.or_eq_true] at h
    rcases h with h | h
    · simp only [List.cons_append, listHasSub, Bool.or_eq_true]
      exact Or.inl (listStarts_extend pat (c :: cs) m h)
    · simp only [List.cons_append, listHasSub, Bool.or_eq_true]
      exact Or.inr (ih m h)

theorem listHasSub_extend_left (pat : List Char) :
    ∀ l m : List Char, listHasSub pat m = true → listHasSub pat (l ++ m) = true := by
  intro l
  induction l with
  | nil => intro m h; exact h
  | cons c cs ih =>
    intro m h
    simp only [List.cons_append, listHasSub, Bool.or_eq_true]
    exact Or.inr (ih m h)

theorem listHasSub_decomp (pat pre post : List Char) :
    listHasSub pat (pre ++ (pat ++ post)) = true := by
  apply listHasSub_extend_left
  apply listHasSub_extend_right
  exact listHasSub_of_starts pat pat (by simpa using listStarts_self_append pat [])

theorem listHasSub_self (pat : List Char) : listHasSub pat pat = true :=
  listHasSub_of_starts pat pat (by simpa using listStarts_self_append pat [])

theorem strHasSub_self_right (a pat : String) : strHasSub (a ++ pat) pat = true := by
  unfold strHasSub
  rw [String.data_append]
  exact listHasSub_extend_left pat.data a.data pat.data (listHasSub_self pat.data)

theorem strHasSub_self_left (pat b : String) : strHasSub (pat ++ b) pat = true := by
  unfold strHasSub
  rw [String.data_append]
  exact listHasSub_extend_right pat.data pat.data b.data (listHasSub_self pat.data)

theorem strHasSub_decomp (pre pat post : String) :
    strHasSub (pre ++ pat ++ post) pat = true := by
  unfold strHasSub
  rw [String.data_append, String.data_append, List.append_assoc]
  exact listHasSub_decomp pat.data pre.data post.data

theorem strHasSub_of_eq (s pre pat post : String) (h : s = pre ++ pat ++ post) :
    strHasSub s pat = true := by
  rw [h]; exact strHasSub_decomp pre pat post

theorem strHasSub_extend_left (a b pat : String) (h : strHasSub b pat = true) :
    strHasSub (a ++ b) pat = true := by
  unfold strHasSub at h ⊢
  rw [String.data_append]
  exact listHasSub_extend_left pat.data a.data b.data h

theorem strHasSub_extend_right (a b pat : String) (h : strHasSub a pat = true) :
    strHasSub (a ++ b) pat = true := by
  unfold strHasSub at h ⊢
  rw [String.data_append]
  exact listHasSub_extend_right pat.data a.data b.data h

theorem abs_roundHalfEvenZ_sub_le (y : ℚ) : |(roundHalfEvenZ y : ℚ) - y| ≤ 1 / 2 := by
  have h1 : (⌊y⌋ : ℚ) ≤ y := Int.floor_le y
  have h2 : y < ⌊y⌋ + 1 := Int.lt_floor_add_one y
  unfold roundHalfEvenZ
  split_ifs with hlt hgt heven
  · rw [abs_le]; constructor <;> [linarith; linarith]
  · push_cast
    rw [abs_le]; constructor <;> [linarith; linarith]
  · rw [abs_le]; constructor <;> [linarith; linarith]
  · push_cast
    rw [abs_le]; constructor <;> [linarith; linarith]

theorem abs_quantizeDec_sub_le (d : ℕ) (x : ℚ) :
    |quantizeDec d x - x| ≤ 1 / (2 * (10 : ℚ) ^ d) := by
  have hp : (0 : ℚ) < (10 : ℚ) ^ d := by positivity
  have h := abs_roundHalfEvenZ_sub_le (x * (10 : ℚ) ^ d)
  unfold quantizeDec
  have heq : (roundHalfEvenZ (x * (10 : ℚ) ^ d) : ℚ) / (10 : ℚ) ^ d - x =
      ((roundHalfEvenZ (x * (10 : ℚ) ^ d) : ℚ) - x * (10 : ℚ) ^ d) / (10 : ℚ) ^ d := by
    field_simp
    ring
  rw [heq, abs_div, abs_of_pos hp]
  rw [div_le_div_iff₀ hp (by positivity)]
  calc |(roundHalfEvenZ (x * (10 : ℚ) ^ d) : ℚ) - x * (10 : ℚ) ^ d| * (2 * (10 : ℚ) ^ d)
      ≤ (1 / 2) * (2 * (10 : ℚ) ^ d) := by
        apply mul_le_mul_of_nonneg_right h (by positivity)
    _ = (10 : ℚ) ^ d := by ring
    _ = 1 * (10 : ℚ) ^ d := by ring

/-! ### Reduction lemmas for `selectPlatform` -/

theorem selectPlatform_bestPrice_both (cca mm : PlatformOption)
    (hA : cca.isAvail = true) (hB : mm.isAvail = true) (b : Bool) :
    selectPlatform cca mm .bestPrice b =
      if b then
        (if cca.getEffectiveRate ≤ mm.getEffectiveRate then .ok cca else .ok mm)
      else
        (if mm.getEffectiveRate ≤ cca.getEffectiveRate then .ok cca else .ok mm) := by
  simp [selectPlatform, hA, hB, ge_iff_le]

theorem selectPlatform_both_unavailable (cca mm : PlatformOption)
    (hA : cca.isAvail = false) (hB : mm.isAvail = false)
    (strategy : RoutingStrategy) (b : Bool) :
    selectPlatform cca mm strategy b = .error ("No platforms available. " ++ joinSep "; "
      ((if optStrTruthy cca.error then ["Cross-Chain Access: " ++ pyStr cca.error] else []) ++
       (if optStrTruthy mm.error then ["Market Maker: " ++ pyStr mm.error] else []))) := by
  simp [selectPlatform, hA, hB]

theorem selectPlatform_ccaOnly_avail (cca mm : PlatformOption)
    (hA : cca.isAvail = true) (b : Bool) :
    selectPlatform cca mm .crossChainAccessOnly b = .ok cca := by
  simp [selectPlatform, hA]

theorem selectPlatform_ccaOnly_unavail (cca mm : PlatformOption)
    (hA : cca.isAvail = false) (hB : mm.isAvail = true) (b : Bool) :
    selectPlatform cca mm .crossChainAccessOnly b =
      .error ("Cross-Chain Access not available: " ++ pyStr cca.error) := by
  simp [selectPlatform, hA, hB]

theorem selectPlatform_mmOnly_avail (cca mm : PlatformOption)
    (hB : mm.isAvail = true) (b : Bool) :
    selectPlatform cca mm .marketMakerOnly b = .ok mm := by
  by_cases hA : cca.isAvail = true
  · simp [selectPlatform, hA, hB]
  · simp at hA
    simp [selectPlatform, hA, hB]

theorem selectPlatform_mmOnly_unavail (cca mm : PlatformOption)
    (hA : cca.isAvail = true) (hB : mm.isAvail = false) (b : Bool) :
    selectPlatform cca mm .marketMakerOnly b =
      .error ("Market Maker not available: " ++ pyStr mm.error) := by
  simp [selectPlatform, hA, hB]

/-! ### Witness fixtures -/

/-- A concrete Cross-Chain Access quote at effective rate 1.05. -/
def quoteA : Quote :=
  { sell_token_address := "0xUSDC", buy_token_address := "0xRWA",
    sell_amount := 100, buy_amount := 105, rate := 21 / 20, source := "cross_chain_access" }

/-- A concrete Market Maker quote at effective rate 1.10. -/
def quoteB : Quote :=
  { sell_token_address := "0xUSDC", buy_token_address := "0xRWA",
    sell_amount := 100, buy_amount := 110, rate := 11 / 10, source := "market_maker" }

/-- An available Cross-Chain Access option. -/
def optA : PlatformOption := { platform := "cross_chain_access", quote := some quoteA }

/-- An available Market Maker option. -/
def optB : PlatformOption := { platform := "market_maker", quote := some quoteB }

/-- An unavailable Cross-Chain Access option. -/
def optAUnavail : PlatformOption :=
  { platform := "cross_chain_access", available := false, error := some "Symbol not provided" }

/-- An unavailable Market Maker option. -/
def optBUnavail : PlatformOption :=
  { platform := "market_maker", available := false, error := some "mm down" }

/-! ### Claim C1 -/

/-- Claim C1: with both options available, `Router.select_platform` under
`BEST_PRICE` returns the option with the lower effective rate when
`is_buy` is true and the option with the higher effective rate when
`is_buy` is false; an exact tie goes to the cross-chain access option
(the first argument) in either direction. -/
theorem router_best_price_direction (cca mm : PlatformOption) (qa qb : Quote)
    (hA : cca.available = true) (hAq : cca.quote = some qa)
    (hB : mm.available = true) (hBq : mm.quote = some qb) :
    (cca.getEffectiveRate < mm.getEffectiveRate →
      selectPlatform cca mm .bestPrice true = .ok cca) ∧
    (mm.getEffectiveRate < cca.getEffectiveRate →
      selectPlatform cca mm .bestPrice true = .ok mm) ∧
    (cca.getEffectiveRate = mm.getEffectiveRate →
      selectPlatform cca mm .bestPrice true = .ok cca) ∧
    (mm.getEffectiveRate < cca.getEffectiveRate →
      selectPlatform cca mm .bestPrice false = .ok cca) ∧
    (cca.getEffectiveRate < mm.getEffectiveRate →
      selectPlatform cca mm .bestPrice false = .ok mm) ∧
    (cca.getEffectiveRate = mm.getEffectiveRate →
      selectPlatform cca mm .bestPrice false = .ok cca) := by
  have hA' : cca.isAvail = true := by simp [PlatformOption.isAvail, hA, hAq]
  have hB' : mm.isAvail = true := by simp [PlatformOption.isAvail, hB, hBq]
  rw [selectPlatform_bestPrice_both cca mm hA' hB' true,
    selectPlatform_bestPrice_both cca mm hA' hB' false]
  refine ⟨fun h => ?_, fun h => ?_, fun h => ?_, fun h => ?_, fun h => ?_, fun h => ?_⟩
  · simp [le_of_lt h]
  · simp [not_le.mpr h]
  · simp [le_of_eq h]
  · simp [le_of_lt h]
  · simp [not_le.mpr h]
  · simp [le_of_eq h.symm]

/-- Witness for C1: concrete rates 1.05 (cross-chain access) and 1.10
(market maker); a buy selects the cross-chain access option, a sell
selects the market maker option. -/
theorem router_best_price_direction_witness :
    selectPlatform optA optB .bestPrice true = .ok optA ∧
    selectPlatform optA optB .bestPrice false = .ok optB :=
  ⟨(router_best_price_direction optA optB quoteA quoteB rfl rfl rfl rfl).1
    (by simp [optA, optB, quoteA, quoteB, PlatformOption.getEffectiveRate]; norm_num),
   (router_best_price_direction optA optB quoteA quoteB rfl rfl rfl rfl).2.2.2.2.1
    (by simp [optA, optB, quoteA, quoteB, PlatformOption.getEffectiveRate]; norm_num)⟩

/-! ### Claim C8 -/

/-- Claim C8: when both options are unavailable (for each: flag false or
quote absent), `Router.select_platform` raises `NoLiquidityException`
regardless of strategy, and when both options carry non-empty error
strings the exception message contains both error strings. -/
theorem router_no_liquidity_both_unavailable (cca mm : PlatformOption)
    (strategy : RoutingStrategy) (is_buy : Bool)
    (hA : cca.available = false ∨ cca.quote = none)
    (hB : mm.available = false ∨ mm.quote = none) :
    ∃ m, selectPlatform cca mm strategy is_buy = .error m ∧
      (∀ e1 e2, cca.error = some e1 → e1 ≠ "" → mm.error = some e2 → e2 ≠ "" →
        strHasSub m e1 = true ∧ strHasSub m e2 = true) := by
  have hA' : cca.isAvail = false := by
    rcases hA with h | h <;> simp [PlatformOption.isAvail, h]
  have hB' : mm.isAvail = false := by
    rcases hB with h | h <;> simp [PlatformOption.isAvail, h]
  refine ⟨_, selectPlatform_both_unavailable cca mm hA' hB' strategy is_buy, ?_⟩
  intro e1 e2 h1 hne1 h2 hne2
  have ht1 : optStrTruthy cca.error = true := by simp [h1, optStrTruthy, hne1]
  have ht2 : optStrTruthy mm.error = true := by simp [h2, optStrTruthy, hne2]
  rw [ht1, ht2, h1, h2]
  simp only [if_pos rfl, List.cons_append, List.nil_append, joinSep, pyStr]
  constructor
  · apply strHasSub_extend_left
    apply strHasSub_extend_right
    apply strHasSub_extend_right
    exact strHasSub_self_right "Cross-Chain Access: " e1
  · apply strHasSub_extend_left
    apply strHasSub_extend_left
    exact strHasSub_self_right "Market Maker: " e2

/-- Witness for C8: two concrete unavailable options with non-empty
errors, under `BEST_PRICE`. -/
theorem router_no_liquidity_both_unavailable_witness :
    ∃ m, selectPlatform optAUnavail optBUnavail .bestPrice true = .error m ∧
      (∀ e1 e2, optAUnavail.error = some e1 → e1 ≠ "" → optBUnavail.error = some e2 → e2 ≠ "" →
        strHasSub m e1 = true ∧ strHasSub m e2 = true) :=
  router_no_liquidity_both_unavailable optAUnavail optBUnavail .bestPrice true
    (Or.inl rfl) (Or.inl rfl)

/-! ### Claim C9 -/

/-- An unavailable cross-chain access option with no error string. -/
def optANoError : PlatformOption := { platform := "cross_chain_access", available := false }

/-- An unavailable market maker option with error `"boom"`. -/
def optBBoom : PlatformOption :=
  { platform := "market_maker", available := false, error := some "boom" }

/-- Counterexample to claim C9 as stated: with strategy
`CROSS_CHAIN_ACCESS_ONLY`, the named venue unavailable (no error string)
and the other venue also unavailable, `Router.select_platform` raises
`NoLiquidityException` via the both-unavailable branch, whose message
does not name the unavailable venue (it does not contain
"Cross-Chain Access"). -/
theorem router_only_naming_counterexample :
    selectPlatform optANoError optBBoom .crossChainAccessOnly true =
      .error "No platforms available. Market Maker: boom" ∧
    strHasSub "No platforms available. Market Maker: boom" "Cross-Chain Access" = false := by
  constructor
  · rfl
  · decide

/-- Claim C9 (amended): with a `*_ONLY` strategy, `Router.select_platform`
returns the option of the named venue when it is available, and otherwise
raises `NoLiquidityException` (so it never returns the option of the other
venue); the message names the unavailable venue whenever the other
venue is available — when both venues are unavailable the
both-unavailable branch fires first and its message only lists venues
with non-empty error strings. -/
theorem router_only_strategy (cca mm : PlatformOption) (b : Bool) :
    (cca.isAvail = true → selectPlatform cca mm .crossChainAccessOnly b = .ok cca) ∧
    (cca.isAvail = false →
      (∃ m, selectPlatform cca mm .crossChainAccessOnly b = .error m) ∧
      (mm.isAvail = true →
        selectPlatform cca mm .crossChainAccessOnly b =
          .error ("Cross-Chain Access not available: " ++ pyStr cca.error) ∧
        strHasSub ("Cross-Chain Access not available: " ++ pyStr cca.error)
          "Cross-Chain Access" = true)) ∧
    (mm.isAvail = true → selectPlatform cca mm .marketMakerOnly b = .ok mm) ∧
    (mm.isAvail = false →
      (∃ m, selectPlatform cca mm .marketMakerOnly b = .error m) ∧
      (cca.isAvail = true →
        selectPlatform cca mm .marketMakerOnly b =
          .error ("Market Maker not available: " ++ pyStr mm.error) ∧
        strHasSub ("Market Maker not available: " ++ pyStr mm.error)
          "Market Maker" = true)) := by
  refine ⟨fun hA => selectPlatform_ccaOnly_avail cca mm hA b, fun hA => ⟨?_, fun hB => ?_⟩,
    fun hB => selectPlatform_mmOnly_avail cca mm hB b, fun hB => ⟨?_, fun hA => ?_⟩⟩
  · by_cases hB : mm.isAvail = true
    · exact ⟨_, selectPlatform_ccaOnly_unavail cca mm hA hB b⟩
    · simp only [Bool.not_eq_true] at hB
      exact ⟨_, selectPlatform_both_unavailable cca mm hA hB .crossChainAccessOnly b⟩
  · refine ⟨selectPlatform_ccaOnly_unavail cca mm hA hB b, ?_⟩
    apply strHasSub_extend_right
    exact strHasSub_self_left "Cross-Chain Access" " not available: "
  · by_cases hA : cca.isAvail = true
    · exact ⟨_, selectPlatform_mmOnly_unavail cca mm hA hB b⟩
    · simp only [Bool.not_eq_true] at hA
      exact ⟨_, selectPlatform_both_unavailable cca mm hA hB .marketMakerOnly b⟩
  · refine ⟨selectPlatform_mmOnly_unavail cca mm hA hB b, ?_⟩
    apply strHasSub_extend_right
    exact strHasSub_self_left "Market Maker" " not available: "

/-- Witness for the amended C9: with the concrete available cross-chain
access option and unavailable market maker option, `CROSS_CHAIN_ACCESS_ONLY`
returns the cross-chain access option and `MARKET_MAKER_ONLY` fails
naming "Market Maker". -/
theorem router_only_strategy_witness :
    selectPlatform optA optBUnavail .crossChainAccessOnly true = .ok optA ∧
    selectPlatform optA optBUnavail .marketMakerOnly true =
      .error ("Market Maker not available: " ++ pyStr optBUnavail.error) ∧
    strHasSub ("Market Maker not available: " ++ pyStr optBUnavail.error)
      "Market Maker" = true :=
  ⟨(router_only_strategy optA optBUnavail true).1 (by rfl),
   ((router_only_strategy optA optBUnavail true).2.2.2 (by rfl)).2 (by rfl)⟩

theorem roundHalfEvenZ_intCast (k : ℤ) : roundHalfEvenZ (k : ℚ) = k := by
  unfold roundHalfEvenZ
  simp

theorem quantizeDec_eq_self (d : ℕ) (x : ℚ) (k : ℤ) (h : x * (10 : ℚ) ^ d = (k : ℚ)) :
    quantizeDec d x = x := by
  unfold quantizeDec
  rw [h, roundHalfEvenZ_intCast, ← h]
  exact mul_div_cancel_right₀ x (by positivity)

/-! ### Claim C2 -/

/-- Claim C2: under `BEST_PRICE` or a `*_FIRST` strategy, when the
executor of the selected venue raises and the option of the other venue
is available, the orchestrator runs the executor of that other venue as
fallback
(returning its result on success); when the fallback also raises, the
orchestrator raises `AllPlatformsFailedException` whose message contains
both underlying error messages.  Under a `*_ONLY` strategy no fallback
is ever attempted: the result is the `TradingException` wrapper of the
primary error, whatever the other executor outcome would have been. -/
theorem trade_fallback_behaviour (strategy : RoutingStrategy)
    (cca mm : PlatformOption) (b : Bool) (sel : PlatformOption)
    (e fe : PyErr) (r : TradeResult)
    (hsel : selectPlatform cca mm strategy b = .ok sel) :
    ((strategy = .bestPrice ∨ strategy = .crossChainAccessFirst ∨
        strategy = .marketMakerFirst) →
      (sel.platform = "cross_chain_access" → mm.available = true →
        tradeOrchestrate strategy cca mm b (.error e) (.ok r) = .ok r ∧
        ∃ m, tradeOrchestrate strategy cca mm b (.error e) (.error fe) =
            .error ⟨"AllPlatformsFailedException", m⟩ ∧
          strHasSub m e.msg = true ∧ strHasSub m fe.msg = true) ∧
      (sel.platform ≠ "cross_chain_access" → cca.available = true →
        tradeOrchestrate strategy cca mm b (.ok r) (.error e) = .ok r ∧
        ∃ m, tradeOrchestrate strategy cca mm b (.error fe) (.error e) =
            .error ⟨"AllPlatformsFailedException", m⟩ ∧
          strHasSub m e.msg = true ∧ strHasSub m fe.msg = true)) ∧
    ((strategy = .crossChainAccessOnly ∨ strategy = .marketMakerOnly) →
      ∀ ccaRun mmRun : Except PyErr TradeResult,
        (if sel.platform = "cross_chain_access" then ccaRun else mmRun) = .error e →
        tradeOrchestrate strategy cca mm b ccaRun mmRun =
          .error ⟨"TradingException", "Trade failed: " ++ e.msg⟩) := by
  constructor
  · intro hstrat
    constructor
    · intro hp hmm
      constructor
      · simp [tradeOrchestrate, hsel, hp, hstrat, hmm]
      · refine ⟨"Primary (" ++ sel.platform ++ "): " ++ e.msg ++
          ". Fallback (" ++ "market_maker" ++ "): " ++ fe.msg, ?_, ?_, ?_⟩
        · simp [tradeOrchestrate, hsel, hp, hstrat, hmm]
        · apply strHasSub_extend_right
          apply strHasSub_extend_right
          apply strHasSub_extend_right
          apply strHasSub_extend_right
          exact strHasSub_self_right ("Primary (" ++ sel.platform ++ "): ") e.msg
        · exact strHasSub_self_right _ fe.msg
    · intro hp hcca
      constructor
      · simp [tradeOrchestrate, hsel, hp, hstrat, hcca]
      · refine ⟨"Primary (" ++ sel.platform ++ "): " ++ e.msg ++
          ". Fallback (" ++ "cross_chain_access" ++ "): " ++ fe.msg, ?_, ?_, ?_⟩
        · simp [tradeOrchestrate, hsel, hp, hstrat, hcca]
        · apply strHasSub_extend_right
          apply strHasSub_extend_right
          apply strHasSub_extend_right
          apply strHasSub_extend_right
          exact strHasSub_self_right ("Primary (" ++ sel.platform ++ "): ") e.msg
        · exact strHasSub_self_right _ fe.msg
  · intro hstrat ccaRun mmRun hrun
    have hnofb : ¬(strategy = .bestPrice ∨ strategy = .crossChainAccessFirst ∨
        strategy = .marketMakerFirst) := by
      rcases hstrat with h | h <;> subst h <;> simp
    simp only [tradeOrchestrate, hsel]
    rw [hrun]
    simp [hnofb]

/-- An arbitrary concrete trade result used by the orchestrator
witnesses. -/
def dummyResult : TradeResult :=
  { tx_hash := "0xfallback", order_id := none, sell_token_address := "0xUSDC",
    buy_token_address := "0xRWA", sell_amount := 100, buy_amount := 105,
    rate := 21 / 20, source := "market_maker" }

/-- Witness for C2: `BEST_PRICE` buy with the 1.05-rate cross-chain
access option selected; its executor fails, the market maker fallback
runs (success and double-failure cases). -/
theorem trade_fallback_behaviour_witness :
    tradeOrchestrate .bestPrice optA optB true
      (.error ⟨"TransactionFailedException", "cca boom"⟩) (.ok dummyResult) = .ok dummyResult ∧
    (∃ m, tradeOrchestrate .bestPrice optA optB true
        (.error ⟨"TransactionFailedException", "cca boom"⟩)
        (.error ⟨"MarketMakerWeb3Exception", "mm boom"⟩) =
        .error ⟨"AllPlatformsFailedException", m⟩ ∧
      strHasSub m "cca boom" = true ∧ strHasSub m "mm boom" = true) := by
  have hsel : selectPlatform optA optB .bestPrice true = .ok optA := by
    rw [selectPlatform_bestPrice_both optA optB rfl rfl true]
    norm_num [optA, optB, quoteA, quoteB, PlatformOption.getEffectiveRate]
  exact ((trade_fallback_behaviour .bestPrice optA optB true optA
    ⟨"TransactionFailedException", "cca boom"⟩ ⟨"MarketMakerWeb3Exception", "mm boom"⟩
    dummyResult hsel).1 (Or.inl rfl)).1 rfl rfl

/-! ### Claim C3 -/

/-- Counterexample to claim C3 as stated: under `MARKET_MAKER_ONLY` with
the market maker selected and its executor raising
`MarketMakerWeb3Exception("boom")`, `trade` does not propagate that
error; it raises a fresh `TradingException("Trade failed: boom")`
wrapper. -/
theorem trade_no_fallback_wraps_counterexample :
    tradeOrchestrate .marketMakerOnly optAUnavail optB true (.ok dummyResult)
      (.error ⟨"MarketMakerWeb3Exception", "boom"⟩) =
      .error ⟨"TradingException", "Trade failed: boom"⟩ ∧
    tradeOrchestrate .marketMakerOnly optAUnavail optB true (.ok dummyResult)
      (.error ⟨"MarketMakerWeb3Exception", "boom"⟩) ≠
      .error ⟨"MarketMakerWeb3Exception", "boom"⟩ := by
  constructor
  · rfl
  · intro h
    rw [show tradeOrchestrate .marketMakerOnly optAUnavail optB true (.ok dummyResult)
        (.error ⟨"MarketMakerWeb3Exception", "boom"⟩) =
        .error ⟨"TradingException", "Trade failed: boom"⟩ from rfl] at h
    simp at h

/-- Claim C3 (amended): when the executor of the selected venue raises and
no fallback is attempted (`*_ONLY` strategy, or the `available` flag of
the alternate venue is false), `trade` raises a `TradingException` whose
message is `"Trade failed: "` followed by the message of the original error
(the original error is chained, not re-raised). -/
theorem trade_no_fallback_wraps (strategy : RoutingStrategy)
    (cca mm : PlatformOption) (b : Bool) (sel : PlatformOption) (e : PyErr)
    (ccaRun mmRun : Except PyErr TradeResult)
    (hsel : selectPlatform cca mm strategy b = .ok sel)
    (hrun : (if sel.platform = "cross_chain_access" then ccaRun else mmRun) = .error e)
    (hnofb : strategy = .crossChainAccessOnly ∨ strategy = .marketMakerOnly ∨
      (if sel.platform = "cross_chain_access" then mm else cca).available = false) :
    tradeOrchestrate strategy cca mm b ccaRun mmRun =
      .error ⟨"TradingException", "Trade failed: " ++ e.msg⟩ := by
  simp only [tradeOrchestrate, hsel]
  rw [hrun]
  rcases hnofb with h | h | h
  · subst h; simp
  · subst h; simp
  · by_cases hallow : strategy = .bestPrice ∨ strategy = .crossChainAccessFirst ∨
      strategy = .marketMakerFirst
    · simp only [if_pos hallow]
      by_cases hp : sel.platform = "cross_chain_access"
      · rw [if_pos hp] at h ⊢
        simp [h]
      · rw [if_neg hp] at h ⊢
        simp [hp, h]
    · simp [hallow]

/-- Witness for the amended C3: the `MARKET_MAKER_ONLY` scenario of the
counterexample, via the amended theorem. -/
theorem trade_no_fallback_wraps_witness :
    tradeOrchestrate .marketMakerOnly optAUnavail optB true (.ok dummyResult)
      (.error ⟨"MarketMakerWeb3Exception", "boom two"⟩) =
      .error ⟨"TradingException", "Trade failed: boom two"⟩ :=
  trade_no_fallback_wraps .marketMakerOnly optAUnavail optB true optB
    ⟨"MarketMakerWeb3Exception", "boom two"⟩ (.ok dummyResult)
    (.error ⟨"MarketMakerWeb3Exception", "boom two"⟩)
    (selectPlatform_mmOnly_avail optAUnavail optB rfl true) (by simp [optB]) (Or.inr (Or.inl rfl))

/-! ### Claim C4 -/

/-- Claim C4: when the selected offer has pricing type `DynamicPricing`
and no `deposit_to_withdrawal_rate`, the Market Maker executor fails
with `MarketMakerWeb3Exception` before submitting any on-chain
transaction (no approval, no take); and whenever a dynamic take is
submitted, it carries exactly that rate (truncated to wei) as the
maximum-rate slippage ceiling, preceded at most by approvals. -/
theorem mm_dynamic_requires_rate (env : Web3Env) (offer : SelectedOffer)
    (from_token : String) (affiliate : Option String) :
    (offer.pricing_type = .dynamicPricing → offer.deposit_to_withdrawal_rate = none →
      mmTradeTakeStep env offer from_token affiliate =
        .error ⟨"MarketMakerWeb3Exception",
          "Dynamic offer " ++ offer.id ++ " missing depositToWithdrawalRate"⟩ ∧
      ∀ acts : List ChainAction, mmTradeTakeStep env offer from_token affiliate ≠ .ok acts) ∧
    (∀ max_rate : ℚ, offer.pricing_type = .dynamicPricing →
      offer.deposit_to_withdrawal_rate = some max_rate →
      ∃ pre, mmTradeTakeStep env offer from_token affiliate =
          .ok (pre ++ [.takeDynamic offer.id (decToInt offer.withdrawal_amount_paid)
            (decToInt max_rate) (affiliateOrZero affiliate)]) ∧
        ∀ a ∈ pre, ∃ t s amt, a = ChainAction.approve t s amt) := by
  constructor
  · intro hdyn hnone
    have h : mmTradeTakeStep env offer from_token affiliate =
        .error ⟨"MarketMakerWeb3Exception",
          "Dynamic offer " ++ offer.id ++ " missing depositToWithdrawalRate"⟩ := by
      simp [mmTradeTakeStep, hdyn, hnone]
    exact ⟨h, fun acts hacts => by rw [h] at hacts; exact Except.noConfusion hacts⟩
  · intro max_rate hdyn hsome
    refine ⟨approveIfNeeded env.allowance from_token env.managerAddress
      (offer.withdrawal_amount_paid / ((10 : ℚ) ^ env.tokenDecimals)), ?_, ?_⟩
    · simp [mmTradeTakeStep, hdyn, hsome, takeOfferDynamicActions]
    · intro a ha
      unfold approveIfNeeded at ha
      split at ha
      · simp at ha
      · simp at ha
        exact ⟨from_token, env.managerAddress, _, ha⟩

/-- Concrete on-chain environment for the C4 witness. -/
def mmEnvW : Web3Env := { allowance := 0, tokenDecimals := 6, managerAddress := "0xManager" }

/-- A dynamic offer lacking the rate. -/
def offerDynNoRate : SelectedOffer :=
  { id := "41", withdrawal_amount_paid := 1000000, withdrawal_amount_paid_decimals := 6,
    maker := "0xMaker", price_per_unit := 2, pricing_type := .dynamicPricing }

/-- A dynamic offer carrying rate 3. -/
def offerDyn : SelectedOffer :=
  { id := "42", withdrawal_amount_paid := 1000000, withdrawal_amount_paid_decimals := 6,
    maker := "0xMaker", price_per_unit := 2, pricing_type := .dynamicPricing,
    deposit_to_withdrawal_rate := some 3 }

/-- Witness for C4: the rate-less dynamic offer produces the error and
no action list; the rate-carrying dynamic offer produces a take with
maximum rate 3. -/
theorem mm_dynamic_requires_rate_witness :
    mmTradeTakeStep mmEnvW offerDynNoRate "0xUSDC" none =
      .error ⟨"MarketMakerWeb3Exception",
        "Dynamic offer " ++ offerDynNoRate.id ++ " missing depositToWithdrawalRate"⟩ ∧
    (∃ pre, mmTradeTakeStep mmEnvW offerDyn "0xUSDC" none =
        .ok (pre ++ [.takeDynamic offerDyn.id (decToInt offerDyn.withdrawal_amount_paid)
          (decToInt 3) (affiliateOrZero none)]) ∧
      ∀ a ∈ pre, ∃ t s amt, a = ChainAction.approve t s amt) :=
  ⟨((mm_dynamic_requires_rate mmEnvW offerDynNoRate "0xUSDC" none).1 rfl rfl).1,
   (mm_dynamic_requires_rate mmEnvW offerDyn "0xUSDC" none).2 3 rfl rfl⟩

/-! ### Claim C6 -/

/-- Claim C6: the availability probes are total (they return a
`PlatformOption`, never propagating the exception): any fetch error
becomes `available=False` with the classified error message; and when the
cross-chain symbol is not supplied, the probe returns `available=False`,
`error="Symbol not provided"` without depending on the fetch at all. -/
theorem probe_totality :
    (∀ e : PyErr, getMarketMakerOption (.error e) =
      { platform := "market_maker", available := false, error := some e.msg }) ∧
    (∀ q : Quote, getMarketMakerOption (.ok q) =
      { platform := "market_maker", quote := some q }) ∧
    (∀ fetch g : String → Except PyErr Quote,
      getCrossChainAccessOption none fetch =
        { platform := "cross_chain_access", available := false,
          error := some "Symbol not provided" } ∧
      getCrossChainAccessOption none fetch = getCrossChainAccessOption none g) ∧
    (∀ (s : String) (fetch : String → Except PyErr Quote) (e : PyErr),
      fetch s = .error e →
      (getCrossChainAccessOption (some s) fetch).available = false ∧
      (getCrossChainAccessOption (some s) fetch).error.isSome = true ∧
      (s ≠ "" → (getCrossChainAccessOption (some s) fetch).error =
        some (if e.ty = "MarketClosedException" then "Market closed" else e.msg))) := by
  refine ⟨fun e => rfl, fun q => rfl, fun fetch g => ⟨rfl, rfl⟩, fun s fetch e hfe => ?_⟩
  by_cases hs : s = ""
  · subst hs
    refine ⟨rfl, rfl, fun h => absurd rfl h⟩
  · have ht : optStrTruthy (some s) = true := by simp [optStrTruthy, hs]
    by_cases hty : e.ty = "MarketClosedException"
    · refine ⟨?_, ?_, fun _ => ?_⟩ <;>
        simp [getCrossChainAccessOption, ht, hfe, hty]
    · refine ⟨?_, ?_, fun _ => ?_⟩ <;>
        simp [getCrossChainAccessOption, ht, hfe, hty]

/-- Witness for C6: a failing market maker fetch, the missing-symbol
short circuit against two distinct fetches, and a failing cross-chain
fetch both with and without `MarketClosedException`. -/
theorem probe_totality_witness :
    getMarketMakerOption (.error ⟨"NoOffersAvailableException", "no offers"⟩) =
      { platform := "market_maker", available := false, error := some "no offers" } ∧
    getCrossChainAccessOption none (fun _ => .error ⟨"APIException", "down"⟩) =
      getCrossChainAccessOption none (fun _ => .ok quoteA) ∧
    (getCrossChainAccessOption (some "AAPL")
      (fun _ => .error ⟨"MarketClosedException", "after hours"⟩)).error =
      some "Market closed" :=
  ⟨probe_totality.1 ⟨"NoOffersAvailableException", "no offers"⟩,
   ((probe_totality.2.2.1 (fun _ => .error ⟨"APIException", "down"⟩) (fun _ => .ok quoteA)).2),
   ((probe_totality.2.2.2 "AAPL" (fun _ => .error ⟨"MarketClosedException", "after hours"⟩)
      ⟨"MarketClosedException", "after hours"⟩ rfl).2.2 (by simp)).trans (by simp)⟩

/-! ### Claim C10 -/

/-- Claim C10: for every symbol and positive ask price,
`CrossChainAccessClient.get_quote` returns a quote with
`sell_amount = 1`, `rate = ask_price` and `buy_amount = 1 / ask_price`,
independent of trade direction; consequently the effective rate the
Router compares for this venue is `1 / ask_price` — ask-price-based for
buys and sells alike. -/
theorem cca_quote_is_ask_based (usdc_address rwa_symbol : String)
    (q : CrossChainAccessQuote) (hq : 0 < q.ask_price) :
    (ccaGetQuote usdc_address rwa_symbol q).sell_amount = 1 ∧
    (ccaGetQuote usdc_address rwa_symbol q).rate = q.ask_price ∧
    (ccaGetQuote usdc_address rwa_symbol q).buy_amount = 1 / q.ask_price ∧
    (∀ b : Bool,
      (PlatformOption.mk "cross_chain_access" (some (ccaGetQuote usdc_address rwa_symbol q))
        true none).getEffectiveRate = 1 / q.ask_price) := by
  refine ⟨rfl, rfl, rfl, fun b => ?_⟩
  simp [PlatformOption.getEffectiveRate, ccaGetQuote]

/-- Witness for C10: ask price 101 gives sell amount 1, rate 101 and
effective rate 1/101 for both directions. -/
theorem cca_quote_is_ask_based_witness :
    (ccaGetQuote "0xUSDC" "AAPL" ⟨100, 101, 5, 5⟩).sell_amount = 1 ∧
    (ccaGetQuote "0xUSDC" "AAPL" ⟨100, 101, 5, 5⟩).rate = 101 ∧
    (ccaGetQuote "0xUSDC" "AAPL" ⟨100, 101, 5, 5⟩).buy_amount = 1 / 101 ∧
    (∀ b : Bool,
      (PlatformOption.mk "cross_chain_access" (some (ccaGetQuote "0xUSDC" "AAPL" ⟨100, 101, 5, 5⟩))
        true none).getEffectiveRate = 1 / 101) :=
  cca_quote_is_ask_based "0xUSDC" "AAPL" ⟨100, 101, 5, 5⟩ (by norm_num)

/-! ### Claim C5 -/

/-- Environment of the C5 failing input: availability and funds checks
pass, the on-chain transfer succeeds with hash `0xabc123`, and the
off-chain order submission raises `OrderFailedException` whose message
does not mention the hash (as `create_order` builds it from the API
error only). -/
def c5Env : CcaEnv :=
  { isAvailable := true, availabilityMessage := "Trading is available",
    quote := ⟨100, 2, 5, 5⟩, buyingPower := 1000000, rwaBalance := 0,
    transferResult := .ok "0xabc123",
    orderResult := .error ⟨"OrderFailedException", "Order creation failed: boom"⟩ }

/-- Claim C5 evaluated at the failing input: the on-chain transfer
succeeded (hash `0xabc123`) and the order submission raised, yet the
error reaching the caller is the order error unchanged — its message
does not contain the transaction hash.  The source has no try/except
around `create_order`, so nothing attaches the hash. -/
theorem cca_order_error_lacks_tx_hash :
    ccaExecuteTrade c5Env "0xRWA" "AAPL" none (some 100) .buy "0xUSDC" =
      .error ⟨"OrderFailedException", "Order creation failed: boom"⟩ ∧
    strHasSub "Order creation failed: boom" "0xabc123" = false := by
  constructor
  · have h1 : quantizeDec 9 ((100 : ℚ) / 2) = 50 := by
      rw [show (100 : ℚ) / 2 = 50 by norm_num]
      rw [quantizeDec_eq_self 9 50 50000000000 (by norm_num)]
    have h2 : quantizeDec 2 (100 : ℚ) = 100 := quantizeDec_eq_self 2 100 10000 (by norm_num)
    have hcalc : calcTradeAmounts .buy none (some 100) 2 = some (50, 100) := by
      simp [calcTradeAmounts, rawTradeAmounts, pyTruthyQ, RWA_DECIMALS, USDC_DECIMALS, h1, h2]
    simp only [ccaExecuteTrade, c5Env, getPriceForSide]
    norm_num [hcalc]
  · decide

/-! ### Claim C7 -/

/-- Counterexample to claim C7 as stated: with price `1/1000` and
supplied RWA amount `4` (buy side), the computed fiat amount is
`quantize2(4 * 1/1000) = quantize2(0.004) = 0`; dividing it back by the
price gives `0`, which misses the supplied amount by `4` — far more than
one rounding unit at either precision (`10^-9` or `10^-2`). -/
theorem cca_round_trip_counterexample :
    calcTradeAmounts .buy (some 4) none (1 / 1000) = some (4, 0) ∧
    (1 / 100 : ℚ) < |(0 : ℚ) / (1 / 1000) - 4| := by
  have h9 : quantizeDec 9 (4 : ℚ) = 4 := quantizeDec_eq_self 9 4 4000000000 (by norm_num)
  have hf : ⌊((1 : ℚ) / 250 * (10 : ℚ) ^ 2 : ℚ)⌋ = 0 := by
    rw [show ((1 : ℚ) / 250 * (10 : ℚ) ^ 2 : ℚ) = 2 / 5 by norm_num]
    rw [Int.floor_eq_iff]
    norm_num
  have hq2 : quantizeDec 2 ((1 : ℚ) / 250) = 0 := by
    unfold quantizeDec roundHalfEvenZ
    rw [hf]
    rw [show ((1 : ℚ) / 250 * (10 : ℚ) ^ 2 : ℚ) = 2 / 5 by norm_num]
    norm_num
  constructor
  · simp only [calcTradeAmounts, rawTradeAmounts, pyTruthyQ, RWA_DECIMALS, USDC_DECIMALS]
    norm_num [show (4 : ℚ) * (1 / 1000) = 1 / 250 by norm_num, h9, hq2]
  · norm_num

/-- Claim C7 (amended): the Cross-Chain Access amount calculation
produces the other amount by direct multiplication (RWA amount supplied)
or division (fiat amount supplied), then rounds the RWA leg to 9
decimals and the fiat leg to 2 decimals; the round trip returns to the
supplied amount within half a rounding unit at the precision of the *computed* amount scaled by the price — `1/(2·10²·price)` when multiplying,
`price/(2·10⁹)` when dividing — not within one rounding unit of the
supplied amount for every positive price. -/
theorem cca_round_trip_bounds (side : OrderSide) (price r u : ℚ) (hp : 0 < price) :
    (r ≠ 0 → calcTradeAmounts side (some r) none price =
        some (quantizeDec 9 r, quantizeDec 2 (r * price)) ∧
      |quantizeDec 2 (r * price) / price - r| ≤ 1 / (2 * 100 * price)) ∧
    (calcTradeAmounts side none (some u) price =
        some (quantizeDec 9 (u / price), quantizeDec 2 u) ∧
      |quantizeDec 9 (u / price) * price - u| ≤ price / (2 * 1000000000)) := by
  have hp0 : price ≠ 0 := ne_of_gt hp
  constructor
  · intro hr
    constructor
    · cases side <;>
        simp [calcTradeAmounts, rawTradeAmounts, pyTruthyQ, hr, RWA_DECIMALS, USDC_DECIMALS]
    · have h := abs_quantizeDec_sub_le 2 (r * price)
      have heq : quantizeDec 2 (r * price) / price - r =
          (quantizeDec 2 (r * price) - r * price) / price := by
        field_simp
        ring
      rw [heq, abs_div, abs_of_pos hp, div_le_div_iff₀ hp (by positivity)]
      have h2 := mul_le_mul_of_nonneg_right h (le_of_lt hp)
      have hten : (10 : ℚ) ^ 2 = 100 := by norm_num
      rw [hten] at h2
      nlinarith [h2]
  · constructor
    · cases side <;>
        simp [calcTradeAmounts, rawTradeAmounts, pyTruthyQ, RWA_DECIMALS, USDC_DECIMALS]
    · have h := abs_quantizeDec_sub_le 9 (u / price)
      have heq : quantizeDec 9 (u / price) * price - u =
          (quantizeDec 9 (u / price) - u / price) * price := by
        field_simp
      rw [heq, abs_mul, abs_of_pos hp]
      have h2 := mul_le_mul_of_nonneg_right h (le_of_lt hp)
      have hten : (10 : ℚ) ^ 9 = 1000000000 := by norm_num
      rw [hten] at h2
      calc |quantizeDec 9 (u / price) - u / price| * price
          ≤ 1 / (2 * 1000000000) * price := h2
        _ = price / (2 * 1000000000) := by ring

/-- Witness for the amended C7: price 2, RWA amount 3 and fiat amount
100 — both branches of the calculation with their round-trip bounds. -/
theorem cca_round_trip_bounds_witness :
    ((3 : ℚ) ≠ 0 → calcTradeAmounts .buy (some 3) none 2 =
        some (quantizeDec 9 3, quantizeDec 2 (3 * 2)) ∧
      |quantizeDec 2 (3 * 2) / 2 - 3| ≤ 1 / (2 * 100 * 2)) ∧
    (calcTradeAmounts .buy none (some 100) 2 =
        some (quantizeDec 9 (100 / 2), quantizeDec 2 100) ∧
      |quantizeDec 9 (100 / 2) * 2 - 100| ≤ 2 / (2 * 1000000000)) :=
  cca_round_trip_bounds .buy 2 3 100 (by norm_num)

end SwarmSDK
